import Mathlib

/-!
Shallow embedding of `drivers/misc/moto-sensorhub/motosh_time.c`.

The file models the three operations of the clock-synchronization core —
`motosh_time_sync`, `motosh_time_recover` and `motosh_time_drift_comp` —
as explicit state transformers over the single piece of shared state, the
static `int64_t motosh_realtime_delta`.

Modelling conventions:
* 64-bit nanosecond timestamps and the shared delta are modelled on `ℤ`.
  Wherever a 64-bit operation can wrap inside the input range a claim
  quantifies over, the wrap is modelled explicitly (`wrap64`,
  `int64_of_uint64` for the uint64 decode in `motosh_time_sync`).
  The `int64_t` intermediates of `motosh_time_recover` and
  `motosh_time_drift_comp` are modelled without wrap-around: all the
  nanosecond quantities involved there stay far below `2^63`
  (an `int64_t` of nanoseconds covers about 292 years).
* The `int32_t` arithmetic of `motosh_time_recover` (the parameter
  `hubshort`, its `*= 16` scaling, and the two rollover comparisons) is
  modelled with explicit two's-complement wrap-around (`wrap32`), because
  it genuinely overflows inside the 28-bit fragment range the spec admits.
* Bit operations on two's-complement values are translated to arithmetic:
  `x & 0xFFFFFFF` is `x % 2^28` (Euclidean remainder, which matches the
  bit pattern of a two's-complement value), `x & 0xFFFFFFFFF0000000`
  clears the low 28 bits, i.e. equals `x - x % 2^28`, and the `|` of the
  cleared high part with a value below `2^28` is addition.
* `div64_s64` is C-style signed division truncating toward zero:
  `Int.tdiv`.
* External effects (GPIO toggles, i2c transport, log lines, the spinlock)
  are outside the modelled state. The transport outcome of
  `motosh_time_sync` is represented by the boolean `err_lt_zero`
  (whether `motosh_i2c_write_read` returned a negative error), and the
  contents of the 8-byte read buffer are an explicit parameter.
-/

set_option linter.unusedVariables false

namespace MotoshTime

/-- Value held by an `int32_t` after two's-complement wrap-around of the
unbounded integer result `x`. -/
def wrap32 (x : ℤ) : ℤ := (x + 2^31) % 2^32 - 2^31

/-- Value held by an `int64_t` after two's-complement wrap-around of the
unbounded integer result `x`. -/
def wrap64 (x : ℤ) : ℤ := (x + 2^63) % 2^64 - 2^63

/-- Reinterpret a `uint64_t` bit pattern (a natural number below `2^64`)
as an `int64_t` value. -/
def int64_of_uint64 (n : ℕ) : ℤ := if n < 2^63 then (n : ℤ) else (n : ℤ) - 2^64

/-- The shared module state: the static `int64_t motosh_realtime_delta`,
the host-minus-hub clock offset in nanoseconds. -/
structure MotoshState where
  motosh_realtime_delta : ℤ
deriving DecidableEq

/-- Big-endian decode of the 8-byte read buffer, as computed in
`motosh_time_sync`:
`((uint64_t)readbuff[0] << 56) | ... | (uint64_t)readbuff[7]`. -/
def hub_time_raw (readbuff : Fin 8 → ℕ) : ℕ :=
  (readbuff 0) <<< 56 ||| (readbuff 1) <<< 48 ||| (readbuff 2) <<< 40 |||
  (readbuff 3) <<< 32 ||| (readbuff 4) <<< 24 ||| (readbuff 5) <<< 16 |||
  (readbuff 6) <<< 8 ||| (readbuff 7)

/-- `hub_time = (big-endian decode) * 1000` as the C computes it: the
multiplication happens in `uint64_t` (so modulo `2^64`) and the result is
assigned to the `int64_t` local `hub_time`. -/
def hub_time_of (readbuff : Fin 8 → ℕ) : ℤ :=
  int64_of_uint64 ((hub_time_raw readbuff * 1000) % 2^64)

/-- `motosh_time_sync`, modelled as a transformer of the shared state.
`err_lt_zero` is whether the `motosh_i2c_write_read` exchange returned an
error (`err < 0`), `readbuff` the bytes the buffer holds afterwards and
`ap_time1` the host time sampled before raising the wake line.

Note the translation is faithful to the control flow of the source: an
exchange error only triggers a `dev_err` log line; execution falls
through, `hub_time` is decoded from the buffer and
`motosh_realtime_delta` is overwritten unconditionally. -/
def motosh_time_sync (err_lt_zero : Bool) (readbuff : Fin 8 → ℕ)
    (ap_time1 : ℤ) (s : MotoshState) : MotoshState :=
  { s with motosh_realtime_delta := wrap64 (ap_time1 - hub_time_of readbuff) }

/-- The scaling step `hubshort *= 16` of `motosh_time_recover`:
`hubshort` is an `int32_t`, so the product wraps modulo `2^32`. -/
def scaled_fragment_us (hubshort : ℤ) : ℤ := wrap32 (hubshort * 16)

/-- The rollover-disambiguation step of `motosh_time_recover` (lines
114–133): compare the low 28 bits of the estimate against the scaled
fragment and move the estimate by one 28-bit span when the discrepancy
exceeds 130000000 µs. Both comparisons are `int` (32-bit) subtractions,
hence the `wrap32`. -/
def rollover_correct (short_hubtime_estimate hubshort hubtime_estimate : ℤ) : ℤ :=
  if wrap32 (short_hubtime_estimate - hubshort) > 130000000 then
    hubtime_estimate + 0x010000000
  else if wrap32 (hubshort - short_hubtime_estimate) > 130000000 then
    hubtime_estimate - 0x010000000
  else
    hubtime_estimate

/-- `motosh_time_recover`: reconstruct a full host-base timestamp from the
28-bit (post-scaling) microsecond fragment carried in a streamed event.
Returns the recovered time together with the (unchanged) shared state. -/
def motosh_time_recover (hubshort : ℤ) (cur_time : ℤ) (s : MotoshState) :
    ℤ × MotoshState :=
  let hubshort16 := scaled_fragment_us hubshort
  let hubtime_estimate :=
    Int.tdiv (cur_time - s.motosh_realtime_delta) 1000
  let short_hubtime_estimate := hubtime_estimate % 2^28
  let corrected :=
    rollover_correct short_hubtime_estimate hubshort16 hubtime_estimate
  let hubtime := ((corrected - corrected % 2^28) + hubshort16 % 2^28) * 1000
  (hubtime + s.motosh_realtime_delta, s)

/-- `#define MAX_DRIFT_LATENCY 100000000` (100 ms in ns). -/
def MAX_DRIFT_LATENCY : ℤ := 100000000

/-- `#define MIN_DRIFT_LATENCY 200000` (.2 ms in ns). -/
def MIN_DRIFT_LATENCY : ℤ := 200000

/-- `#define DRIFT_NUDGE 50000` (.05 ms). -/
def DRIFT_NUDGE : ℤ := 50000

/-- `motosh_time_drift_comp`: nudge the shared delta when the observed
offset `cur_time - rec_hub` leaves the acceptable latency band. Returns
the nudge direction together with the updated shared state. -/
def motosh_time_drift_comp (rec_hub cur_time : ℤ) (streaming : Bool)
    (s : MotoshState) : ℤ × MotoshState :=
  let offset := cur_time - rec_hub
  if streaming ∧ offset > MAX_DRIFT_LATENCY then
    (1, { s with motosh_realtime_delta := s.motosh_realtime_delta + DRIFT_NUDGE })
  else if offset < MIN_DRIFT_LATENCY then
    (-1, { s with motosh_realtime_delta := s.motosh_realtime_delta - DRIFT_NUDGE })
  else
    (0, s)

/-- `n` successive invocations of `motosh_time_drift_comp` with the same
arguments, threading the shared state through. -/
def drift_comp_iter (rec_hub cur_time : ℤ) (streaming : Bool) :
    ℕ → MotoshState → MotoshState
  | 0, s => s
  | n + 1, s =>
      drift_comp_iter rec_hub cur_time streaming n
        (motosh_time_drift_comp rec_hub cur_time streaming s).2

/-- Modelled from the wording of the specification (§4.2, steps 1–5, as
restated by the round-trip formula of claim C5): scale the fragment to
microseconds as the exact product `fragment * 16`, project the estimate
through the offset with truncating division, apply the rollover
correction on the exact differences, splice, convert to nanoseconds and
add the offset back. -/
def recover_spec (fragment cur_time delta : ℤ) : ℤ :=
  let fragment_us := fragment * 16
  let estimate := Int.tdiv (cur_time - delta) 1000
  let estimate_low28 := estimate % 2^28
  let corrected :=
    if estimate_low28 - fragment_us > 130000000 then estimate + 0x010000000
    else if fragment_us - estimate_low28 > 130000000 then estimate - 0x010000000
    else estimate
  ((corrected - corrected % 2^28) + fragment_us % 2^28) * 1000 + delta

/-! ### Helper lemmas -/

/-- A value already inside the `int32_t` range is unchanged by the wrap. -/
theorem wrap32_eq_self {x : ℤ} (hlo : -2^31 ≤ x) (hhi : x < 2^31) :
    wrap32 x = x := by
  unfold wrap32
  omega

/-- A value already inside the `int64_t` range is unchanged by the wrap. -/
theorem wrap64_eq_self {x : ℤ} (hlo : -2^63 ≤ x) (hhi : x < 2^63) :
    wrap64 x = x := by
  unfold wrap64
  omega

/-! ### Claim theorems -/

/-- C9: `motosh_time_recover` never modifies the shared delta: the state
returned by the call is the state it was given — the function only reads
`motosh_realtime_delta`. -/
theorem recover_preserves_delta (hubshort cur_time : ℤ) (s : MotoshState) :
    (motosh_time_recover hubshort cur_time s).2 = s := rfl

/-- C10: every call to `motosh_time_drift_comp` returns a value in
`{-1, 0, 1}`, and the shared delta after the call equals the delta before
the call plus the return value times 50000 ns, so the returned direction
exactly characterizes the side effect. -/
theorem drift_comp_return_characterizes_effect (rec_hub cur_time : ℤ)
    (streaming : Bool) (s : MotoshState) :
    ((motosh_time_drift_comp rec_hub cur_time streaming s).1 = -1 ∨
     (motosh_time_drift_comp rec_hub cur_time streaming s).1 = 0 ∨
     (motosh_time_drift_comp rec_hub cur_time streaming s).1 = 1) ∧
    (motosh_time_drift_comp rec_hub cur_time streaming s).2.motosh_realtime_delta =
      s.motosh_realtime_delta +
        (motosh_time_drift_comp rec_hub cur_time streaming s).1 * 50000 := by
  unfold motosh_time_drift_comp MAX_DRIFT_LATENCY MIN_DRIFT_LATENCY DRIFT_NUDGE
  dsimp only
  split_ifs <;> simp <;> omega

/-- C6: `motosh_time_drift_comp` returns 1 and adds exactly 50000 ns to
the shared delta exactly when `streaming` holds and the observed offset
`cur_time - rec_hub` strictly exceeds 100000000 ns; otherwise it returns
-1 and subtracts exactly 50000 ns exactly when the observed offset is
strictly below 200000 ns (regardless of `streaming`); otherwise it
returns 0 and leaves the delta unchanged. Offsets exactly at either
boundary cause no nudge (the boundaries are exclusive). -/
theorem drift_comp_cases (rec_hub cur_time : ℤ) (streaming : Bool)
    (s : MotoshState) :
    (motosh_time_drift_comp rec_hub cur_time streaming s =
        (1, ⟨s.motosh_realtime_delta + 50000⟩) ↔
      streaming = true ∧ cur_time - rec_hub > 100000000) ∧
    (motosh_time_drift_comp rec_hub cur_time streaming s =
        (-1, ⟨s.motosh_realtime_delta - 50000⟩) ↔
      cur_time - rec_hub < 200000) ∧
    (motosh_time_drift_comp rec_hub cur_time streaming s = (0, s) ↔
      ¬(streaming = true ∧ cur_time - rec_hub > 100000000) ∧
        ¬(cur_time - rec_hub < 200000)) := by
  obtain ⟨d⟩ := s
  unfold motosh_time_drift_comp MAX_DRIFT_LATENCY MIN_DRIFT_LATENCY DRIFT_NUDGE
  dsimp only
  split_ifs with h1 h2 <;>
    simp_all [Prod.ext_iff, MotoshState.mk.injEq] <;>
    omega

/-- C8: for inputs whose observed offset `cur_time - rec_hub` lies inside
the acceptable band — at least 200000 ns and at most 100000000 ns — any
number of repeated calls to `motosh_time_drift_comp` leaves the shared
delta unchanged, for both values of `streaming`. -/
theorem drift_comp_idempotent_in_band (rec_hub cur_time : ℤ)
    (streaming : Bool) (n : ℕ) (s : MotoshState)
    (hlo : 200000 ≤ cur_time - rec_hub)
    (hhi : cur_time - rec_hub ≤ 100000000) :
    drift_comp_iter rec_hub cur_time streaming n s = s := by
  induction n with
  | zero => rfl
  | succ n ih =>
      have hstep : (motosh_time_drift_comp rec_hub cur_time streaming s).2 = s := by
        unfold motosh_time_drift_comp MAX_DRIFT_LATENCY MIN_DRIFT_LATENCY DRIFT_NUDGE
        dsimp only
        split_ifs with h1 h2
        · exact absurd h1.2 (by omega)
        · exact absurd h2 (by omega)
        · rfl
      rw [drift_comp_iter, hstep, ih]

/-- Witness for C8 at a concrete input inside the band: three repeated
calls with observed offset 300000 ns leave the delta 7 unchanged. -/
theorem drift_comp_idempotent_in_band_witness :
    drift_comp_iter 0 300000 true 3 ⟨7⟩ = ⟨7⟩ :=
  drift_comp_idempotent_in_band 0 300000 true 3 ⟨7⟩ (by decide) (by decide)

/-- C1: contrary to the claim, a failed read-back exchange does NOT leave
the stored delta unchanged. The source only logs on `err < 0` and then
falls through: the delta is overwritten from whatever the read buffer
holds. Concretely, with the error flag set, an all-zero buffer,
`ap_time1 = 0` and prior delta 5, the stored delta becomes 0 (the prior
value 5 is discarded); moreover the result never depends on the error
flag at all. -/
theorem sync_transport_failure_still_overwrites :
    (motosh_time_sync true (fun _ => 0) 0 ⟨5⟩).motosh_realtime_delta = 0 ∧
    (motosh_time_sync true (fun _ => 0) 0 ⟨5⟩).motosh_realtime_delta ≠ 5 ∧
    (∀ (readbuff : Fin 8 → ℕ) (ap_time1 : ℤ) (s : MotoshState),
      motosh_time_sync true readbuff ap_time1 s =
        motosh_time_sync false readbuff ap_time1 s) := by
  refine ⟨by decide, by decide, fun readbuff ap_time1 s => rfl⟩

/-- C3 counterexample: with the all-0xFF response and `host_t1 = 0` the
`uint64_t` multiplication by 1000 wraps modulo `2^64`, so the stored
delta (1000) differs from the exact value
`host_t1 - decoded_value * 1000`. -/
theorem sync_delta_exact_counterexample :
    (motosh_time_sync false (fun _ => 255) 0 ⟨0⟩).motosh_realtime_delta ≠
      0 - (hub_time_raw (fun _ => 255) : ℤ) * 1000 := by
  decide

/-- C3 amended: for every 8-byte response whose decoded value times 1000
fits in `int64_t`, and every sampled host time whose difference with that
product also fits in `int64_t`, `motosh_time_sync` stores as the new
delta exactly `ap_time1 - decoded * 1000` — an unconditional overwrite
with no smoothing and no rounding loss. -/
theorem sync_delta_exact (err_lt_zero : Bool) (readbuff : Fin 8 → ℕ)
    (ap_time1 : ℤ) (s : MotoshState)
    (hbytes : ∀ i, readbuff i < 256)
    (hprod : (hub_time_raw readbuff : ℤ) * 1000 < 2^63)
    (hlo : -2^63 ≤ ap_time1 - (hub_time_raw readbuff : ℤ) * 1000)
    (hhi : ap_time1 - (hub_time_raw readbuff : ℤ) * 1000 < 2^63) :
    (motosh_time_sync err_lt_zero readbuff ap_time1 s).motosh_realtime_delta =
      ap_time1 - (hub_time_raw readbuff : ℤ) * 1000 := by
  unfold motosh_time_sync hub_time_of int64_of_uint64
  have hmod : hub_time_raw readbuff * 1000 % 2^64 = hub_time_raw readbuff * 1000 :=
    Nat.mod_eq_of_lt (by omega)
  rw [hmod, if_pos (show hub_time_raw readbuff * 1000 < 2^63 by omega)]
  rw [wrap64_eq_self (by push_cast; omega) (by push_cast; omega)]
  push_cast
  ring

/-- Witness for the amended C3 at a concrete input: an all-zero response
with `ap_time1 = 7` stores delta `7 - 0 * 1000`. -/
theorem sync_delta_exact_witness :
    (motosh_time_sync false (fun _ => 0) 7 ⟨3⟩).motosh_realtime_delta =
      7 - (hub_time_raw (fun _ => 0) : ℤ) * 1000 :=
  sync_delta_exact false (fun _ => 0) 7 ⟨3⟩ (by decide) (by decide)
    (by decide) (by decide)

/-- C7 counterexample: the fragment `2^27` lies in the 28-bit range the
contract admits, but the `int32_t` scaling `hubshort *= 16` wraps: the
value used by the rest of the algorithm is `-2^31`, not `2^27 * 16`. -/
theorem scaled_fragment_exact_counterexample :
    (134217728 : ℤ) < 2^28 ∧
      scaled_fragment_us 134217728 ≠ 134217728 * 16 := by
  constructor
  · decide
  · decide

/-- C7 amended: for every fragment below `2^27` (so that the product by
16 fits in `int32_t`) the scaled microsecond value used by the rest of
`motosh_time_recover` is exactly `fragment * 16`; from `2^27` up to
`2^28` the `int32_t` multiplication wraps modulo `2^32` instead. -/
theorem scaled_fragment_exact (hubshort : ℤ)
    (h0 : 0 ≤ hubshort) (h1 : hubshort < 2^27) :
    scaled_fragment_us hubshort = hubshort * 16 := by
  unfold scaled_fragment_us
  exact wrap32_eq_self (by omega) (by omega)

/-- Witness for the amended C7 at a concrete input: fragment 5 scales to
exactly 80 µs. -/
theorem scaled_fragment_exact_witness : scaled_fragment_us 5 = 5 * 16 :=
  scaled_fragment_exact 5 (by decide) (by decide)

/-- C4: the rollover-correction step of `motosh_time_recover` applies the
one-span (`0x10000000` µs) correction exactly when the low-28-bit
discrepancy strictly exceeds the threshold: for every estimate and every
scaled fragment value in `[0, 2^28)`, the span is added when
`estimate_low28 - fragment_us > 130000000`, subtracted when
`fragment_us - estimate_low28 > 130000000`, and the estimate is left
unchanged when the difference is at most 130000000 in either direction
(the threshold is exclusive). -/
theorem rollover_correction_threshold (hubtime_estimate hubshort : ℤ)
    (h0 : 0 ≤ hubshort) (h1 : hubshort < 2^28) :
    (hubtime_estimate % 2^28 - hubshort > 130000000 →
      rollover_correct (hubtime_estimate % 2^28) hubshort hubtime_estimate =
        hubtime_estimate + 0x010000000) ∧
    (hubshort - hubtime_estimate % 2^28 > 130000000 →
      rollover_correct (hubtime_estimate % 2^28) hubshort hubtime_estimate =
        hubtime_estimate - 0x010000000) ∧
    (-130000000 ≤ hubtime_estimate % 2^28 - hubshort →
      hubtime_estimate % 2^28 - hubshort ≤ 130000000 →
      rollover_correct (hubtime_estimate % 2^28) hubshort hubtime_estimate =
        hubtime_estimate) := by
  unfold rollover_correct wrap32
  refine ⟨fun h => ?_, fun h => ?_, fun h h2 => ?_⟩ <;>
    split_ifs <;> omega

/-- Witness for C4 at a concrete input: estimate 200000000, fragment 0 —
the discrepancy 200000000 exceeds the threshold, so one span is added. -/
theorem rollover_correction_threshold_witness :
    rollover_correct ((200000000 : ℤ) % 2^28) 0 200000000 =
      200000000 + 0x010000000 :=
  (rollover_correction_threshold 200000000 0 (by decide) (by decide)).1
    (by decide)

/-- C5 counterexample: at fragment `2^28 - 1` (admitted by the 28-bit
contract) the code and the spec formula disagree: the `int32_t` scaling
wraps to -16, the code takes the roll-forward branch while the spec
formula (exact `fragment * 16`) takes the roll-back branch, and the two
results differ. -/
theorem recover_formula_counterexample :
    (motosh_time_recover 268435455 140000000000 ⟨0⟩).1 ≠
      recover_spec 268435455 140000000000 0 := by
  decide

/-- C5 amended: for every fragment below `2^27` (so that the `int32_t`
scaling is exact) and every host time and delta, `motosh_time_recover`
returns exactly
`((corrected_estimate & ~0xFFFFFFF) | (fragment_us & 0xFFFFFFF)) * 1000 + delta`
where `corrected_estimate` is `(cur_time - delta) / 1000` (truncating
signed division) after any rollover correction and
`fragment_us = fragment * 16`, as stated by the spec formula
`recover_spec`. -/
theorem recover_matches_spec_formula (fragment cur_time delta : ℤ)
    (h0 : 0 ≤ fragment) (h1 : fragment < 2^27) :
    (motosh_time_recover fragment cur_time ⟨delta⟩).1 =
      recover_spec fragment cur_time delta := by
  unfold motosh_time_recover recover_spec rollover_correct scaled_fragment_us
  dsimp only
  have hf : wrap32 (fragment * 16) = fragment * 16 :=
    wrap32_eq_self (by omega) (by omega)
  rw [hf]
  have hm0 : 0 ≤ Int.tdiv (cur_time - delta) 1000 % 2^28 := by omega
  have hm1 : Int.tdiv (cur_time - delta) 1000 % 2^28 < 2^28 := by omega
  rw [wrap32_eq_self (x := Int.tdiv (cur_time - delta) 1000 % 2^28 - fragment * 16)
      (by omega) (by omega)]
  rw [wrap32_eq_self (x := fragment * 16 - Int.tdiv (cur_time - delta) 1000 % 2^28)
      (by omega) (by omega)]

/-- Witness for the amended C5 at a concrete input: fragment 125000,
host time 2051000000, delta 50000000 (the end-to-end example of the
spec). -/
theorem recover_matches_spec_formula_witness :
    (motosh_time_recover 125000 2051000000 ⟨50000000⟩).1 =
      recover_spec 125000 2051000000 50000000 :=
  recover_matches_spec_formula 125000 2051000000 50000000
    (by decide) (by decide)

/-- C2: round-trip. For every host-base hub-origin timestamp `T` (a time
that is `delta` plus a whole number of 16 µs hub ticks in nanoseconds)
whose true age relative to `cur_time` is within the rollover-safe window
(at most 130000000 µs — the code threshold, about half the 28-bit-µs wrap
span — in either direction), and with the delta set to the correct
host-minus-hub offset, truncating `T` to its low-28-bit microsecond
fragment expressed as 16-µs ticks and passing that fragment with
`cur_time` to `motosh_time_recover` returns exactly `T`. -/
theorem recover_round_trip (delta T cur_time : ℤ)
    (hofs : 0 ≤ delta) (hT : delta ≤ T)
    (hdvd : (16000 : ℤ) ∣ (T - delta))
    (hcur : delta ≤ cur_time)
    (hage1 : cur_time - T ≤ 130000000000)
    (hage2 : T - cur_time ≤ 130000000000) :
    (motosh_time_recover ((((T - delta) / 1000) % 2^28) / 16) cur_time
        ⟨delta⟩).1 = T := by
  obtain ⟨k, hk⟩ := hdvd
  have hk0 : 0 ≤ k := by omega
  unfold motosh_time_recover scaled_fragment_us rollover_correct wrap32
  dsimp only
  rw [Int.tdiv_eq_ediv (by omega) (by norm_num)]
  split_ifs <;> omega

/-- Witness for C2 at the end-to-end example of the spec: delta 50000000,
`T = 2050000000`, `cur_time = 2051000000`; the fragment works out to
125000 ticks and recovery returns `T` exactly. -/
theorem recover_round_trip_witness :
    (motosh_time_recover ((((2050000000 - 50000000) / 1000) % 2^28) / 16)
        2051000000 ⟨50000000⟩).1 = 2050000000 :=
  recover_round_trip 50000000 2050000000 2051000000 (by decide) (by decide)
    (by norm_num) (by decide) (by decide) (by decide)

end MotoshTime
